import Mathlib

/-!
Verification of the budget-optimization core of a marketing-mix-model
library, against its specification.  The embedding covers:

* `BudgetOptimizer.objective` - the spend-vector-to-negative-response map
  (budget_optimizer.py, lines 59-99);
* `BudgetOptimizer.allocate_budget` - bounds/constraint resolution,
  warnings, solver invocation and result decoding (lines 101-187);
* `BaseFunction.initialize_model_config` and the adstock component
  classes (models/components/lagging.py).

External collaborators (the pytensor transform functions and the scipy
SLSQP solver) are not part of the repository; they are modelled as
explicit function parameters, and claims that depend on their contracts
carry those contracts as hypotheses.
-/

namespace MMM

/-- A budget optimizer instance.  `A` is the type of one channel's
adstock parameter set, `S` of its saturation parameter set; the two
transform functions are the (already evaluated) pytensor functions of
the adstock and saturation objects, and `l_max` is the adstock lag
attribute used by `objective`. -/
structure BudgetOptimizer (A S : Type) where
  adstock_function : List ℚ → A → List ℚ
  saturation_function : List ℚ → S → List ℚ
  l_max : ℕ
  num_days : ℕ
  parameters : List (String × A × S)
  adstock_first : Bool

variable {A S : Type}

/-- The body of one iteration of the loop in `objective` (lines 92-98):
extend the constant spend series by `l_max` zeros and apply the two
transforms in the configured order, each with its own parameter set. -/
def channelTransformed (bo : BudgetOptimizer A S) (budget : ℚ) (ap : A) (sp : S) :
    List ℚ :=
  let spend := List.replicate bo.num_days budget
  let spend_extended := spend ++ List.replicate bo.l_max 0
  if bo.adstock_first then
    bo.saturation_function (bo.adstock_function spend_extended ap) sp
  else
    bo.adstock_function (bo.saturation_function spend_extended sp) ap

/-- The accumulation loop of `objective`: `idx` is the running
enumeration index into `budgets`. -/
def objectiveLoop (bo : BudgetOptimizer A S) (budgets : List ℚ) :
    List (String × A × S) → ℕ → ℚ
  | [], _ => 0
  | p :: rest, idx =>
      (channelTransformed bo (budgets.getD idx 0) p.2.1 p.2.2).sum
        + objectiveLoop bo budgets rest (idx + 1)

/-- `BudgetOptimizer.objective` (lines 59-99): the negated total
response over all channels. -/
def objective (bo : BudgetOptimizer A S) (budgets : List ℚ) : ℚ :=
  -(objectiveLoop bo budgets bo.parameters 0)

/-- The Python value supplied for the `budget_bounds` argument: `None`,
a dict from channel name to a pair, or a value of some other type. -/
inductive PyBounds where
  | none_ : PyBounds
  | dict (d : List (String × ℚ × ℚ)) : PyBounds
  | notADict : PyBounds
deriving DecidableEq

/-- A scipy constraint dict: a type tag (for instance "eq") and the
constraint function over the budget vector. -/
structure ConstraintDict where
  ctype : String
  cfun : List ℚ → ℚ

/-- The Python value supplied for the `custom_constraints` argument. -/
inductive PyConstraints where
  | none_ : PyConstraints
  | dict (c : ConstraintDict) : PyConstraints
  | notADict : PyConstraints

/-- The `options` dict passed to `scipy.optimize.minimize`. -/
structure SolverOptions where
  ftol : ℚ
  maxiter : ℕ
deriving DecidableEq

/-- The options literal of line 178 of the source:
options=\x7b"ftol": 1e-9, "maxiter": 1000\x7d. -/
def slsqpOptions : SolverOptions :=
  { ftol := 1 / 1000000000, maxiter := 1000 }

/-- The fields of the `scipy.optimize.OptimizeResult` that
`allocate_budget` reads: `success`, `x`, `fun` and `message`. -/
structure OptimizeResult where
  success : Bool
  x : List ℚ
  fval : ℚ
  message : String
deriving DecidableEq

/-- Modelled from the spec: `scipy.optimize.minimize` with
method="SLSQP" is external to the repository, so it is an abstract
function of exactly the arguments the source passes on lines 172-179:
the objective, the initial guess, the bounds list, the constraint dict
and the options. -/
def Solver : Type :=
  (List ℚ → ℚ) → List ℚ → List (ℚ × ℚ) → ConstraintDict → SolverOptions →
    OptimizeResult

/-- The errors `allocate_budget` can raise: the two `TypeError`s and
the final `Exception` on solver failure. -/
inductive PyErr where
  | typeError (msg : String) : PyErr
  | exception (msg : String) : PyErr
deriving DecidableEq

/-- The warning text of lines 141-144. -/
def boundsWarning : String :=
  "No budget bounds provided. Using default bounds (0, total_budget) for each channel."

/-- The warning text of lines 152-155 (spelling as in the source). -/
def constraintWarning : String :=
  "Using default equaliy constraint: The sum of all budgets should be equal to the total budget."

/-- Lines 139-140: the default bounds dict, one entry per channel. -/
def default_budget_bounds (bo : BudgetOptimizer A S) (total_budget : ℚ) :
    List (String × ℚ × ℚ) :=
  bo.parameters.map (fun p => (p.1, (0, total_budget)))

/-- Lines 138-147: resolve the `budget_bounds` argument to the bounds
dict used below, `none` when the `TypeError` of line 147 is raised. -/
def resolved_budget_bounds (bo : BudgetOptimizer A S) (total_budget : ℚ) :
    PyBounds → Option (List (String × ℚ × ℚ))
  | .none_ => some (default_budget_bounds bo total_budget)
  | .dict d => some d
  | .notADict => none

/-- The warnings emitted while resolving `budget_bounds`. -/
def bounds_warnings : PyBounds → List String
  | .none_ => [boundsWarning]
  | _ => []

/-- Line 150: the default equality constraint dict. -/
def default_constraint (total_budget : ℚ) : ConstraintDict :=
  { ctype := "eq", cfun := fun x => x.sum - total_budget }

/-- Lines 149-158: resolve the `custom_constraints` argument, `none`
when the `TypeError` of line 156 is raised. -/
def resolved_constraints (total_budget : ℚ) :
    PyConstraints → Option ConstraintDict
  | .none_ => some (default_constraint total_budget)
  | .dict c => some c
  | .notADict => none

/-- The warnings emitted while resolving `custom_constraints`. -/
def constraint_warnings : PyConstraints → List String
  | .none_ => [constraintWarning]
  | _ => []

/-- Lines 160-163: `[total_budget // num_channels] * num_channels`,
with Python float floor division rendered as the rational floor. -/
def initial_guess (total_budget : ℚ) (num_channels : ℕ) : List ℚ :=
  List.replicate num_channels ((⌊total_budget / (num_channels : ℚ)⌋ : ℤ) : ℚ)

/-- Lines 164-171: the bounds list, in the iteration order of
`self.parameters`, looking each channel up in the bounds dict and
defaulting to `(0, total_budget)` when absent. -/
def boundsFor (bo : BudgetOptimizer A S) (bb : List (String × ℚ × ℚ))
    (total_budget : ℚ) : List (ℚ × ℚ) :=
  bo.parameters.map (fun p =>
    match bb.lookup p.1 with
    | some b => b
    | none => (0, total_budget))

/-- Lines 172-179: the single call to `minimize`. -/
def solverInvocation (bo : BudgetOptimizer A S) (solver : Solver)
    (total_budget : ℚ) (bb : List (String × ℚ × ℚ))
    (constraints : ConstraintDict) : OptimizeResult :=
  solver (objective bo) (initial_guess total_budget bo.parameters.length)
    (boundsFor bo bb total_budget) constraints slsqpOptions

/-- Lines 181-184: decode the solution vector into the channel-keyed
mapping, zipping the channel names with the solution entries. -/
def decodeSolution (bo : BudgetOptimizer A S) (x : List ℚ) :
    List (String × ℚ) :=
  (bo.parameters.map (fun p => p.1)).zip x

/-- `BudgetOptimizer.allocate_budget` (lines 101-187).  The returned
pair is the list of warnings emitted (in order) and either the
`(optimal_budgets, -result.fun)` pair or the raised error. -/
def allocate_budget (bo : BudgetOptimizer A S) (solver : Solver)
    (total_budget : ℚ) (budget_bounds : PyBounds)
    (custom_constraints : PyConstraints) :
    List String × Except PyErr (List (String × ℚ) × ℚ) :=
  match resolved_budget_bounds bo total_budget budget_bounds with
  | none => ([], .error (.typeError "`budget_bounds` should be a dictionary."))
  | some bb =>
    match resolved_constraints total_budget custom_constraints with
    | none =>
        (bounds_warnings budget_bounds,
          .error (.typeError "`custom_constraints` should be a dictionary."))
    | some constraints =>
        let result := solverInvocation bo solver total_budget bb constraints
        let ws := bounds_warnings budget_bounds
          ++ constraint_warnings custom_constraints
        if result.success then
          (ws, .ok (decodeSolution bo result.x, -result.fval))
        else
          (ws, .error (.exception ("Optimization failed: " ++ result.message)))

/-! ### models/components/lagging.py -/

/-- One value of a model_config dict: a distribution name and its
keyword arguments, as in the default configs of lagging.py. -/
structure ConfigEntry where
  dist : String
  kwargs : List (String × ℚ)
deriving DecidableEq

/-- A model_config dict, as the partial map from key to entry. -/
def ModelConfig : Type := String → Option ConfigEntry

/-- Python dict merge of two configs: the second overrides the first on
common keys. -/
def mergeConfig (a b : ModelConfig) : ModelConfig :=
  fun key =>
    match b key with
    | some v => some v
    | none => a key

/-- `BaseFunction` of lagging.py, reduced to the two class attributes
`initialize_model_config` reads: `REQUIRED_KEYS` and the
`_default_lagging_config` property of the concrete subclass. -/
structure BaseFunction where
  REQUIRED_KEYS : List String
  default_lagging_config : ModelConfig

/-- `BaseFunction.initialize_model_config` (lagging.py lines 22-32). -/
def BaseFunction.initialize_model_config (self : BaseFunction)
    (model_config : Option ModelConfig) : ModelConfig :=
  match model_config with
  | some mc =>
      if ¬ (self.REQUIRED_KEYS.all (fun key => (mc key).isSome)) then
        mergeConfig mc self.default_lagging_config
      else
        mc
  | none => self.default_lagging_config

/-- The Beta(1, 3) prior entry appearing in every default config. -/
def beta13 : ConfigEntry :=
  { dist := "Beta", kwargs := [("alpha", 1), ("beta", 3)] }

/-- `GeometricAdstockComponent._default_lagging_config`. -/
def geometricDefaultConfig : ModelConfig :=
  fun key => if key = "adstock_alpha" then some beta13 else none

/-- `GeometricAdstockComponent`: its REQUIRED_KEYS and default config. -/
def GeometricAdstockComponent : BaseFunction :=
  { REQUIRED_KEYS := ["adstock_alpha"],
    default_lagging_config := geometricDefaultConfig }

/-- `WeibullPDFAdstockComponent._default_lagging_config` (identical in
content to the CDF variant). -/
def weibullDefaultConfig : ModelConfig :=
  fun key =>
    if key = "adstock_lambda" then some beta13
    else if key = "adstock_shape" then some beta13
    else none

/-- `WeibullPDFAdstockComponent`. -/
def WeibullPDFAdstockComponent : BaseFunction :=
  { REQUIRED_KEYS := ["adstock_lambda", "adstock_shape"],
    default_lagging_config := weibullDefaultConfig }

/-- `WeibullCDFAdstockComponent`. -/
def WeibullCDFAdstockComponent : BaseFunction :=
  { REQUIRED_KEYS := ["adstock_lambda", "adstock_shape"],
    default_lagging_config := weibullDefaultConfig }

/-! ### Theorems -/

/-- For any component whose default config covers its required keys,
`initialize_model_config` returns a config covering the required keys;
a supplied config covering them is returned unchanged; and a supplied
config missing one is overridden by the default on every key the
default defines. -/
theorem initialize_model_config_spec (cls : BaseFunction)
    (hcov : ∀ key ∈ cls.REQUIRED_KEYS,
      (cls.default_lagging_config key).isSome = true)
    (model_config : Option ModelConfig) :
    (∀ key ∈ cls.REQUIRED_KEYS,
        ((cls.initialize_model_config model_config) key).isSome = true)
    ∧ (∀ mc, model_config = some mc →
        (∀ key ∈ cls.REQUIRED_KEYS, (mc key).isSome = true) →
        cls.initialize_model_config model_config = mc)
    ∧ (∀ mc, model_config = some mc →
        (∃ key ∈ cls.REQUIRED_KEYS, mc key = none) →
        ∀ key, (cls.default_lagging_config key).isSome = true →
          (cls.initialize_model_config model_config) key
            = cls.default_lagging_config key) := by
  refine ⟨?_, ?_, ?_⟩
  · intro key hkey
    cases model_config with
    | none =>
        simpa [BaseFunction.initialize_model_config] using hcov key hkey
    | some mc =>
        by_cases hall : cls.REQUIRED_KEYS.all (fun k => (mc k).isSome) = true
        · have := List.all_eq_true.mp hall key hkey
          simp only [BaseFunction.initialize_model_config, hall,
            not_true_eq_false, if_false]
          exact this
        · obtain ⟨v, hv⟩ := Option.isSome_iff_exists.mp (hcov key hkey)
          simp [BaseFunction.initialize_model_config, hall, mergeConfig, hv]
  · intro mc hmc hall
    subst hmc
    have h : cls.REQUIRED_KEYS.all (fun k => (mc k).isSome) = true :=
      List.all_eq_true.mpr (fun k hk => hall k hk)
    simp [BaseFunction.initialize_model_config, h]
  · intro mc hmc hmiss key hdef
    subst hmc
    have h : ¬ cls.REQUIRED_KEYS.all (fun k => (mc k).isSome) = true := by
      obtain ⟨k, hk, hknone⟩ := hmiss
      intro hall
      have := List.all_eq_true.mp hall k hk
      simp [hknone] at this
    obtain ⟨v, hv⟩ := Option.isSome_iff_exists.mp hdef
    simp [BaseFunction.initialize_model_config, h, mergeConfig, hv]

/-- C10: for every adstock component class and every model_config
argument, `initialize_model_config` returns a config containing every
REQUIRED_KEYS key; a supplied config holding all required keys is
returned unchanged; a supplied config missing a required key has the
default value installed for every key the default config defines,
overriding any caller value there. -/
theorem C10_initialize_model_config (cls : BaseFunction)
    (hcls : cls = GeometricAdstockComponent ∨ cls = WeibullPDFAdstockComponent
      ∨ cls = WeibullCDFAdstockComponent)
    (model_config : Option ModelConfig) :
    (∀ key ∈ cls.REQUIRED_KEYS,
        ((cls.initialize_model_config model_config) key).isSome = true)
    ∧ (∀ mc, model_config = some mc →
        (∀ key ∈ cls.REQUIRED_KEYS, (mc key).isSome = true) →
        cls.initialize_model_config model_config = mc)
    ∧ (∀ mc, model_config = some mc →
        (∃ key ∈ cls.REQUIRED_KEYS, mc key = none) →
        ∀ key, (cls.default_lagging_config key).isSome = true →
          (cls.initialize_model_config model_config) key
            = cls.default_lagging_config key) := by
  apply initialize_model_config_spec
  rcases hcls with rfl | rfl | rfl <;>
    · intro key hkey
      fin_cases hkey <;> rfl

/-- A concrete single-channel optimizer with identity transforms, for
instantiating theorems at concrete inputs. -/
def boUnit : BudgetOptimizer Unit Unit :=
  { adstock_function := fun xs _ => xs
    saturation_function := fun xs _ => xs
    l_max := 2
    num_days := 3
    parameters := [("chan1", (), ())]
    adstock_first := true }

/-- A solver that always reports success with solution `[100]`. -/
def solverA : Solver :=
  fun _ _ _ _ _ => { success := true, x := [100], fval := -100, message := "" }

/-- A solver that always reports failure. -/
def solverB : Solver :=
  fun _ _ _ _ _ =>
    { success := false, x := [], fval := 0, message := "Iteration limit reached" }

/-- C3: a non-mapping budget_bounds or custom_constraints argument
makes allocate_budget raise a TypeError whose result is fully
determined without consulting the solver or the objective, so the
error precedes any optimizer invocation or objective evaluation. -/
theorem C3_type_error_before_solver {A S : Type} (bo : BudgetOptimizer A S)
    (solver : Solver) (total_budget : ℚ) (budget_bounds : PyBounds)
    (custom_constraints : PyConstraints)
    (h : budget_bounds = PyBounds.notADict
      ∨ custom_constraints = PyConstraints.notADict) :
    allocate_budget bo solver total_budget budget_bounds custom_constraints
      = if budget_bounds = PyBounds.notADict then
          ([], .error (.typeError "`budget_bounds` should be a dictionary."))
        else
          (bounds_warnings budget_bounds,
            .error (.typeError "`custom_constraints` should be a dictionary.")) := by
  rcases h with rfl | rfl
  · rfl
  · cases budget_bounds <;> rfl

/-- Witness for C3: a non-dict bounds argument at concrete inputs. -/
theorem C3_witness :
    allocate_budget boUnit solverA 100 PyBounds.notADict PyConstraints.none_
      = ([], .error (.typeError "`budget_bounds` should be a dictionary.")) := by
  have h := C3_type_error_before_solver boUnit solverA 100 PyBounds.notADict
    PyConstraints.none_ (Or.inl rfl)
  simpa using h

/-- C6 (amended): every entry of the initial guess is the floor of
total_budget / num_channels, as produced by the Python floor division
of line 161. -/
theorem C6_initial_guess_floor (total_budget : ℚ) (n : ℕ) (i : ℕ)
    (hi : i < n) :
    (initial_guess total_budget n)[i]?
      = some ((⌊total_budget / (n : ℚ)⌋ : ℤ) : ℚ) := by
  simp [initial_guess, List.getElem?_replicate, hi]

/-- Witness for C6 (amended) at total_budget 5, two channels. -/
theorem C6_witness :
    (0 < 2 ∧ (initial_guess 5 2)[0]? = some ((⌊(5 : ℚ) / (2 : ℚ)⌋ : ℤ) : ℚ)) :=
  ⟨by decide, C6_initial_guess_floor 5 2 0 (by decide)⟩

/-- C6 counterexample: with total_budget 5 and two channels the guess
assigns 2 to each channel, and 2 is not 5 / 2. -/
theorem C6_counterexample :
    initial_guess 5 2 = [2, 2] ∧ ((2 : ℚ) ≠ 5 / 2) := by
  constructor
  · show List.replicate 2 ((⌊(5 : ℚ) / ((2 : ℕ) : ℚ)⌋ : ℤ) : ℚ) = [2, 2]
    norm_num [List.replicate_succ]
  · norm_num

/-- C7 (amended): the options passed to the solver are hardcoded, so
two solvers agreeing at `slsqpOptions` are indistinguishable through
allocate_budget; the hardcoded values are ftol 1e-9 and maxiter 1000. -/
theorem C7_options_fixed {A S : Type} (bo : BudgetOptimizer A S)
    (s1 s2 : Solver) (total_budget : ℚ) (budget_bounds : PyBounds)
    (custom_constraints : PyConstraints)
    (hagree : ∀ obj x0 bnds cons,
      s1 obj x0 bnds cons slsqpOptions = s2 obj x0 bnds cons slsqpOptions) :
    slsqpOptions.ftol = 1 / 1000000000 ∧ slsqpOptions.maxiter = 1000
    ∧ allocate_budget bo s1 total_budget budget_bounds custom_constraints
      = allocate_budget bo s2 total_budget budget_bounds custom_constraints := by
  refine ⟨rfl, rfl, ?_⟩
  cases budget_bounds <;> cases custom_constraints <;>
    simp [allocate_budget, solverInvocation, hagree]

/-- Witness for C7 (amended): two concrete solvers agreeing at the
hardcoded options. -/
theorem C7_witness :
    allocate_budget boUnit solverA 100 PyBounds.none_ PyConstraints.none_
      = allocate_budget boUnit
          (fun obj x0 bnds cons opts =>
            if opts.maxiter = 1000 then solverA obj x0 bnds cons opts
            else solverB obj x0 bnds cons opts)
          100 PyBounds.none_ PyConstraints.none_ :=
  (C7_options_fixed boUnit solverA _ 100 PyBounds.none_ PyConstraints.none_
    (fun _ _ _ _ => by simp [slsqpOptions])).2.2

/-- A probe solver distinguishable from `probeSolver2` at every options
value except the hardcoded one. -/
def probeSolver1 : Solver :=
  fun _ _ _ _ opts =>
    if opts = slsqpOptions then
      { success := false, x := [], fval := 0, message := "std" }
    else
      { success := false, x := [], fval := 0, message := "probe one" }

/-- The counterpart of `probeSolver1`. -/
def probeSolver2 : Solver :=
  fun _ _ _ _ opts =>
    if opts = slsqpOptions then
      { success := false, x := [], fval := 0, message := "std" }
    else
      { success := false, x := [], fval := 0, message := "probe two" }

/-- The claim of C7 as a proposition: some caller input to
allocate_budget makes the solver receive options other than the
hardcoded ones, which the probe solvers would detect. -/
def optionsConfigurable : Prop :=
  ∃ (A S : Type) (bo : BudgetOptimizer A S) (total_budget : ℚ)
    (budget_bounds : PyBounds) (custom_constraints : PyConstraints),
    allocate_budget bo probeSolver1 total_budget budget_bounds custom_constraints
      ≠ allocate_budget bo probeSolver2 total_budget budget_bounds custom_constraints

/-- C7 counterexample: the tolerance and iteration cap are not
configurable by the caller: no input to allocate_budget ever reaches
the solver with options other than `slsqpOptions`. -/
theorem C7_counterexample : ¬ optionsConfigurable := by
  rintro ⟨A, S, bo, tb, bb, cc, hne⟩
  apply hne
  cases bb <;> cases cc <;>
    simp [allocate_budget, solverInvocation, probeSolver1, probeSolver2]

/-- Looking a channel of `l` up in the dict that maps every channel of
`l` to a fixed value finds that value. -/
theorem lookup_map_const {A S : Type} (l : List (String × A × S)) (v : ℚ × ℚ)
    (p : String × A × S) (hp : p ∈ l) :
    (l.map (fun q => (q.1, v))).lookup p.1 = some v := by
  induction l with
  | nil => cases hp
  | cons q rest ih =>
    simp only [List.map_cons, List.lookup]
    cases hqp : (p.1 == q.1) with
    | true => simp [hqp]
    | false =>
      simp only [hqp]
      rcases List.mem_cons.mp hp with rfl | hp2
      · simp at hqp
      · exact ih hp2

/-- The warnings emitted by a call that reaches the solver are exactly
the bounds warnings followed by the constraint warnings. -/
theorem allocate_budget_fst {A S : Type} (bo : BudgetOptimizer A S)
    (solver : Solver) (total_budget : ℚ) (bb : PyBounds) (cc : PyConstraints)
    (hbb : bb ≠ PyBounds.notADict) (hcc : cc ≠ PyConstraints.notADict) :
    (allocate_budget bo solver total_budget bb cc).1
      = bounds_warnings bb ++ constraint_warnings cc := by
  cases bb <;> cases cc <;> first
    | exact absurd rfl hbb
    | exact absurd rfl hcc
    | simp [allocate_budget, resolved_budget_bounds, resolved_constraints, apply_ite Prod.fst]

/-- C4: with no bounds mapping every channel resolves to
(0, total_budget) and the bounds warning is emitted; with a supplied
mapping each present channel gets its interval verbatim, absent
channels get (0, total_budget), and no bounds warning is emitted; with
no constraint set the default sum-equals-total equality constraint is
installed and its warning emitted; a supplied constraint set is passed
through verbatim with no warning. -/
theorem C4_defaults_and_warnings {A S : Type} (bo : BudgetOptimizer A S)
    (solver : Solver) (total_budget : ℚ) :
    (boundsFor bo (default_budget_bounds bo total_budget) total_budget
        = bo.parameters.map (fun _ => ((0 : ℚ), total_budget)))
    ∧ (∀ cc, boundsWarning
        ∈ (allocate_budget bo solver total_budget PyBounds.none_ cc).1)
    ∧ (∀ (d : List (String × ℚ × ℚ)) (i : ℕ),
        (boundsFor bo d total_budget)[i]?
          = (bo.parameters[i]?).map (fun p =>
              match d.lookup p.1 with
              | some b => b
              | none => ((0 : ℚ), total_budget)))
    ∧ (∀ d cc, boundsWarning
        ∉ (allocate_budget bo solver total_budget (PyBounds.dict d) cc).1)
    ∧ (resolved_constraints total_budget PyConstraints.none_
        = some (default_constraint total_budget)
      ∧ (default_constraint total_budget).ctype = "eq"
      ∧ ∀ x : List ℚ,
          (default_constraint total_budget).cfun x = x.sum - total_budget)
    ∧ (∀ bb, bb ≠ PyBounds.notADict → constraintWarning
        ∈ (allocate_budget bo solver total_budget bb PyConstraints.none_).1)
    ∧ (∀ c, resolved_constraints total_budget (PyConstraints.dict c) = some c)
    ∧ (∀ bb c, constraintWarning
        ∉ (allocate_budget bo solver total_budget bb (PyConstraints.dict c)).1) := by
  have hne : boundsWarning ≠ constraintWarning := by decide
  refine ⟨?_, ?_, ?_, ?_, ⟨rfl, rfl, fun x => rfl⟩, ?_, fun c => rfl, ?_⟩
  · unfold boundsFor
    apply List.map_congr_left
    intro p hp
    rw [show default_budget_bounds bo total_budget
        = bo.parameters.map (fun q => (q.1, ((0 : ℚ), total_budget))) from rfl,
      lookup_map_const _ _ p hp]
  · intro cc
    cases cc with
    | notADict => simp [allocate_budget, resolved_budget_bounds, resolved_constraints, bounds_warnings]
    | none_ =>
        rw [allocate_budget_fst bo solver total_budget _ _ (by simp) (by simp)]
        simp [bounds_warnings]
    | dict c =>
        rw [allocate_budget_fst bo solver total_budget _ _ (by simp) (by simp)]
        simp [bounds_warnings]
  · intro d i
    simp [boundsFor]
  · intro d cc
    cases cc with
    | notADict => simp [allocate_budget, resolved_budget_bounds, resolved_constraints, bounds_warnings]
    | none_ =>
        rw [allocate_budget_fst bo solver total_budget _ _ (by simp) (by simp)]
        simp [bounds_warnings, constraint_warnings, hne]
    | dict c =>
        rw [allocate_budget_fst bo solver total_budget _ _ (by simp) (by simp)]
        simp [bounds_warnings, constraint_warnings]
  · intro bb hbb
    cases bb with
    | notADict => exact absurd rfl hbb
    | none_ =>
        rw [allocate_budget_fst bo solver total_budget _ _ (by simp) (by simp)]
        simp [constraint_warnings]
    | dict d =>
        rw [allocate_budget_fst bo solver total_budget _ _ (by simp) (by simp)]
        simp [constraint_warnings]
  · intro bb c
    cases bb with
    | notADict => simp [allocate_budget, resolved_budget_bounds, resolved_constraints]
    | none_ =>
        rw [allocate_budget_fst bo solver total_budget _ _ (by simp) (by simp)]
        simp [bounds_warnings, constraint_warnings, hne.symm]
    | dict d =>
        rw [allocate_budget_fst bo solver total_budget _ _ (by simp) (by simp)]
        simp [bounds_warnings, constraint_warnings]

/-- Witness for C4 at concrete inputs: both default warnings appear
when defaults are used, and the bounds warning is absent when a bounds
dict is supplied. -/
theorem C4_witness :
    boundsWarning
      ∈ (allocate_budget boUnit solverA 100 PyBounds.none_ PyConstraints.none_).1
    ∧ constraintWarning
      ∈ (allocate_budget boUnit solverA 100 PyBounds.none_ PyConstraints.none_).1
    ∧ boundsWarning
      ∉ (allocate_budget boUnit solverA 100 (PyBounds.dict []) PyConstraints.none_).1 := by
  have h := C4_defaults_and_warnings boUnit solverA 100
  exact ⟨h.2.1 PyConstraints.none_,
    h.2.2.2.2.2.1 PyBounds.none_ (by simp),
    h.2.2.2.1 [] PyConstraints.none_⟩

/-- The second component of a call that reaches the solver: the decoded
solution on success, the exception on failure. -/
theorem allocate_budget_snd {A S : Type} (bo : BudgetOptimizer A S)
    (solver : Solver) (total_budget : ℚ) (budget_bounds : PyBounds)
    (custom_constraints : PyConstraints) (bb : List (String × ℚ × ℚ))
    (constraints : ConstraintDict)
    (hbb : resolved_budget_bounds bo total_budget budget_bounds = some bb)
    (hcc : resolved_constraints total_budget custom_constraints = some constraints) :
    (allocate_budget bo solver total_budget budget_bounds custom_constraints).2
      = (if (solverInvocation bo solver total_budget bb constraints).success = true then
          .ok (decodeSolution bo (solverInvocation bo solver total_budget bb constraints).x,
            -(solverInvocation bo solver total_budget bb constraints).fval)
        else
          .error (.exception ("Optimization failed: "
            ++ (solverInvocation bo solver total_budget bb constraints).message))) := by
  cases budget_bounds <;> cases custom_constraints <;>
    simp only [resolved_budget_bounds, resolved_constraints,
      Option.some.injEq, reduceCtorEq] at hbb hcc <;>
    subst hbb <;> subst hcc <;>
    simp [allocate_budget, resolved_budget_bounds, resolved_constraints,
      apply_ite Prod.snd]

/-- C5: on solver success allocate_budget returns the decoded
channel-keyed mapping paired with the negated final objective value,
and - when the solver adheres to the scipy contract of reporting the
objective value at its solution - evaluating the objective at the
returned allocation reproduces the reported response; on failure it
raises an exception carrying the solver diagnostic message and returns
no allocation. -/
theorem C5_result_and_failure {A S : Type} (bo : BudgetOptimizer A S)
    (solver : Solver) (total_budget : ℚ) (budget_bounds : PyBounds)
    (custom_constraints : PyConstraints) (bb : List (String × ℚ × ℚ))
    (constraints : ConstraintDict)
    (hbb : resolved_budget_bounds bo total_budget budget_bounds = some bb)
    (hcc : resolved_constraints total_budget custom_constraints = some constraints)
    (r : OptimizeResult)
    (hr : r = solverInvocation bo solver total_budget bb constraints) :
    (r.success = true →
      (allocate_budget bo solver total_budget budget_bounds custom_constraints).2
        = .ok (decodeSolution bo r.x, -r.fval)
      ∧ (r.x.length = bo.parameters.length →
          (decodeSolution bo r.x).map Prod.snd = r.x)
      ∧ (r.x.length = bo.parameters.length → r.fval = objective bo r.x →
          -(objective bo ((decodeSolution bo r.x).map Prod.snd)) = -r.fval))
    ∧ (r.success = false →
      (allocate_budget bo solver total_budget budget_bounds custom_constraints).2
        = .error (.exception ("Optimization failed: " ++ r.message))) := by
  have hsnd := allocate_budget_snd bo solver total_budget budget_bounds
    custom_constraints bb constraints hbb hcc
  rw [← hr] at hsnd
  have hmap : r.x.length = bo.parameters.length →
      (decodeSolution bo r.x).map Prod.snd = r.x := by
    intro hlen
    apply List.map_snd_zip
    simp [hlen]
  constructor
  · intro hsucc
    refine ⟨by rw [hsnd, if_pos hsucc], hmap, ?_⟩
    intro hlen hfid
    rw [hmap hlen, ← hfid]
  · intro hfail
    rw [hsnd, if_neg (by simp [hfail])]

/-- Witness for C5 at concrete inputs: a succeeding and a failing
solver on the one-channel optimizer. -/
theorem C5_witness :
    (allocate_budget boUnit solverA 100 PyBounds.none_ PyConstraints.none_).2
      = .ok (decodeSolution boUnit [100], -(-100 : ℚ))
    ∧ (allocate_budget boUnit solverB 100 PyBounds.none_ PyConstraints.none_).2
      = .error (.exception ("Optimization failed: " ++ "Iteration limit reached")) := by
  constructor
  · exact ((C5_result_and_failure boUnit solverA 100 PyBounds.none_
      PyConstraints.none_ _ _ rfl rfl _ rfl).1 rfl).1
  · exact (C5_result_and_failure boUnit solverB 100 PyBounds.none_
      PyConstraints.none_ _ _ rfl rfl _ rfl).2 rfl

/-- C2: with the default equality constraint, a successful return whose
solver satisfied the resolved bounds and the equality constraint within
tolerance yields an allocation summing to total_budget within that
tolerance, with each channel value inside its resolved bounds. -/
theorem C2_allocation_feasible {A S : Type} (bo : BudgetOptimizer A S)
    (solver : Solver) (total_budget tol : ℚ) (budget_bounds : PyBounds)
    (bb : List (String × ℚ × ℚ))
    (_hn : 1 ≤ bo.parameters.length) (_htb : 0 < total_budget)
    (hbb : resolved_budget_bounds bo total_budget budget_bounds = some bb)
    (r : OptimizeResult)
    (hr : r = solverInvocation bo solver total_budget bb
      (default_constraint total_budget))
    (hsucc : r.success = true)
    (hlen : r.x.length = bo.parameters.length)
    (hbnds : ∀ (i : ℕ) (b : ℚ × ℚ) (v : ℚ),
      (boundsFor bo bb total_budget)[i]? = some b → r.x[i]? = some v →
      b.1 ≤ v ∧ v ≤ b.2)
    (hcons : |(default_constraint total_budget).cfun r.x| ≤ tol) :
    (allocate_budget bo solver total_budget budget_bounds PyConstraints.none_).2
      = .ok (decodeSolution bo r.x, -r.fval)
    ∧ |((decodeSolution bo r.x).map Prod.snd).sum - total_budget| ≤ tol
    ∧ (∀ (i : ℕ) (p : String × ℚ), (decodeSolution bo r.x)[i]? = some p →
        ∃ b, (boundsFor bo bb total_budget)[i]? = some b
          ∧ b.1 ≤ p.2 ∧ p.2 ≤ b.2) := by
  have hmap : (decodeSolution bo r.x).map Prod.snd = r.x := by
    apply List.map_snd_zip
    simp [hlen]
  refine ⟨?_, ?_, ?_⟩
  · have hsnd := allocate_budget_snd bo solver total_budget budget_bounds
      PyConstraints.none_ bb (default_constraint total_budget) hbb rfl
    rw [← hr] at hsnd
    rw [hsnd, if_pos hsucc]
  · rw [hmap]
    exact hcons
  · intro i p hp
    have hz := List.getElem?_zip_eq_some.mp hp
    have hxi : r.x[i]? = some p.2 := hz.2
    have hi : i < r.x.length := by
      by_contra hge
      rw [List.getElem?_eq_none (by omega)] at hxi
      cases hxi
    have hib : i < (boundsFor bo bb total_budget).length := by
      simpa [boundsFor, ← hlen] using hi
    refine ⟨(boundsFor bo bb total_budget)[i], ?_, ?_⟩
    · exact List.getElem?_eq_getElem hib
    · exact hbnds i _ p.2 (List.getElem?_eq_getElem hib) hxi

/-- Witness for C2: one channel, total budget 100, a solver returning
the exact feasible point 100. -/
theorem C2_witness :
    (allocate_budget boUnit solverA 100 PyBounds.none_ PyConstraints.none_).2
      = .ok (decodeSolution boUnit [100], -(-100 : ℚ))
    ∧ |((decodeSolution boUnit [100]).map Prod.snd).sum - 100| ≤ 0 := by
  have h := C2_allocation_feasible boUnit solverA 100 0 PyBounds.none_
    (default_budget_bounds boUnit 100) (by decide) (by norm_num) rfl
    { success := true, x := [100], fval := -100, message := "" } rfl rfl rfl
    (by
      intro i b v hb hv
      match i with
      | 0 =>
          simp [boundsFor, default_budget_bounds, boUnit] at hb
          simp at hv
          subst hv
          rw [← hb]
          norm_num
      | (n + 1) => simp at hv)
    (by simp [default_constraint])
  exact ⟨h.1, h.2.1⟩

/-- The enumeration loop of the objective equals the sum over the
channel/spend pairs, when the budget vector covers the remaining
channels. -/
theorem objectiveLoop_eq_zip {A S : Type} (bo : BudgetOptimizer A S)
    (budgets : List ℚ) :
    ∀ (l : List (String × A × S)) (idx : ℕ), l.length + idx ≤ budgets.length →
    objectiveLoop bo budgets l idx
      = ((l.zip (budgets.drop idx)).map
          (fun q => (channelTransformed bo q.2 q.1.2.1 q.1.2.2).sum)).sum := by
  intro l
  induction l with
  | nil => intro idx h; simp [objectiveLoop]
  | cons p rest ih =>
    intro idx h
    have hidx : idx < budgets.length := by simp at h; omega
    have hdrop : budgets.drop idx = budgets[idx] :: budgets.drop (idx + 1) :=
      List.drop_eq_getElem_cons hidx
    have hgetD : budgets.getD idx 0 = budgets[idx] := by
      simp [List.getD_eq_getElem?_getD, List.getElem?_eq_getElem hidx]
    rw [objectiveLoop, hdrop]
    simp only [List.zip_cons_cons, List.map_cons, List.sum_cons]
    rw [hgetD, ih (idx + 1) (by simp at h ⊢; omega)]

/-- C1: for a spend vector with one scalar per channel in the fixed
channel order, the objective is the negation of the sum over channels
of the time-sum of the channel's transformed series: a constant series
of length num_days at the channel's spend, extended by l_max zeros,
with both transforms applied in the configured order, each on its own
parameter subset. -/
theorem C1_objective_decomposition {A S : Type} (bo : BudgetOptimizer A S)
    (budgets : List ℚ) (hlen : budgets.length = bo.parameters.length) :
    objective bo budgets
      = -(((bo.parameters.zip budgets).map
            (fun q => (channelTransformed bo q.2 q.1.2.1 q.1.2.2).sum)).sum) := by
  rw [objective, objectiveLoop_eq_zip bo budgets bo.parameters 0 (by omega)]
  simp

/-- Witness for C1: the one-channel optimizer at spend 3. -/
theorem C1_witness :
    (([(3 : ℚ)] : List ℚ).length = boUnit.parameters.length)
    ∧ objective boUnit [3]
      = -(((boUnit.parameters.zip [3]).map
            (fun q => (channelTransformed boUnit q.2 q.1.2.1 q.1.2.2).sum)).sum) :=
  ⟨rfl, C1_objective_decomposition boUnit [3] rfl⟩

/-- The enumeration loop of the objective as an indexed sum: the j-th
summand reads the budget at index idx + j against the j-th remaining
channel. -/
theorem objectiveLoop_eq_finsum {A S : Type} (bo : BudgetOptimizer A S)
    (budgets : List ℚ) :
    ∀ (l : List (String × A × S)) (idx : ℕ),
    objectiveLoop bo budgets l idx
      = ∑ j : Fin l.length,
          (channelTransformed bo (budgets.getD (idx + j) 0)
            (l.get j).2.1 (l.get j).2.2).sum := by
  intro l
  induction l with
  | nil => intro idx; simp [objectiveLoop]
  | cons p rest ih =>
    intro idx
    have hsum : ∑ j : Fin rest.length,
        (channelTransformed bo (budgets.getD (idx + 1 + (j : ℕ)) 0)
          (rest.get j).2.1 (rest.get j).2.2).sum
      = ∑ j : Fin rest.length,
        (channelTransformed bo (budgets.getD (idx + ((j : ℕ) + 1)) 0)
          (rest.get j).2.1 (rest.get j).2.2).sum := by
      apply Finset.sum_congr rfl
      intro j _
      have harith : idx + 1 + (j : ℕ) = idx + ((j : ℕ) + 1) := by omega
      rw [harith]
    have hsucc := Fin.sum_univ_succ
      (f := fun j : Fin (rest.length + 1) =>
        (channelTransformed bo (budgets.getD (idx + (j : ℕ)) 0)
          ((p :: rest).get j).2.1 ((p :: rest).get j).2.2).sum)
    simp only [Fin.val_zero, Nat.add_zero, List.get_cons_zero, Fin.val_succ,
      List.get_cons_succ] at hsucc
    rw [objectiveLoop, ih (idx + 1), hsum]
    exact hsucc.symm

/-- C8: a single channel ordering - the iteration order of the
parameters mapping - is used wherever a numeric vector is exchanged:
the j-th objective summand reads budgets at index j against the j-th
channel's parameters, the i-th bounds entry resolves the i-th channel's
name, and the i-th decoded solution entry is keyed by the i-th
channel's name. -/
theorem C8_channel_ordering {A S : Type} (bo : BudgetOptimizer A S)
    (budgets : List ℚ) (d : List (String × ℚ × ℚ)) (total_budget : ℚ)
    (x : List ℚ) (i : ℕ) (hi : i < bo.parameters.length) :
    (objective bo budgets
      = -(∑ j : Fin bo.parameters.length,
          (channelTransformed bo (budgets.getD j 0)
            (bo.parameters.get j).2.1 (bo.parameters.get j).2.2).sum))
    ∧ ((boundsFor bo d total_budget)[i]?
        = some (match d.lookup (bo.parameters.get ⟨i, hi⟩).1 with
            | some b => b
            | none => ((0 : ℚ), total_budget)))
    ∧ (∀ v : ℚ, x[i]? = some v →
        (decodeSolution bo x)[i]? = some ((bo.parameters.get ⟨i, hi⟩).1, v)) := by
  refine ⟨?_, ?_, ?_⟩
  · rw [objective, objectiveLoop_eq_finsum bo budgets bo.parameters 0]
    simp
  · simp [boundsFor, List.getElem?_eq_getElem
      (show i < bo.parameters.length from hi)]
  · intro v hv
    simp [decodeSolution, List.getElem?_zip_eq_some, hv,
      List.getElem?_eq_getElem (show i < bo.parameters.length from hi)]

/-- Witness for C8: one channel, concrete spend, bounds dict and
solution vector. -/
theorem C8_witness :
    objective boUnit [5] = -(channelTransformed boUnit 5 () ()).sum
    ∧ (boundsFor boUnit [("chan1", 1, 2)] 100)[0]? = some (1, 2)
    ∧ (decodeSolution boUnit [7])[0]? = some ("chan1", 7) := by
  have h := C8_channel_ordering boUnit [5] [("chan1", 1, 2)] 100 [7] 0
    (by decide)
  refine ⟨?_, ?_, h.2.2 7 rfl⟩
  · rw [h.1]
    simp [boUnit]
  · have h2 := h.2.1
    simpa [boUnit] using h2

/-- A list equal to its own elementwise doubling is all zero. -/
theorem eq_zipWith_add_self_zero :
    ∀ l : List ℚ, List.zipWith (· + ·) l l = l → ∀ a ∈ l, a = 0 := by
  intro l
  induction l with
  | nil => intro _ a ha; cases ha
  | cons b t ih =>
    intro h a ha
    simp only [List.zipWith_cons_cons] at h
    injection h with hb ht
    rcases List.mem_cons.mp ha with rfl | hat
    · linarith
    · exact ih ht a hat

/-- An all-zero list is its own elementwise doubling. -/
theorem zipWith_add_self_of_zero :
    ∀ l : List ℚ, (∀ a ∈ l, a = 0) → List.zipWith (· + ·) l l = l := by
  intro l
  induction l with
  | nil => intro _; rfl
  | cons b t ih =>
    intro h
    have hb : b = 0 := h b (by simp)
    simp only [List.zipWith_cons_cons]
    rw [ih (fun a ha => h a (by simp [ha])), hb]
    norm_num

/-- A transform that is additive on equal-length lists maps every
all-zero list to an all-zero list. -/
theorem additive_map_zero (f : List ℚ → List ℚ)
    (hf : ∀ xs ys : List ℚ, xs.length = ys.length →
      f (List.zipWith (· + ·) xs ys) = List.zipWith (· + ·) (f xs) (f ys))
    (z : List ℚ) (hz : ∀ a ∈ z, a = 0) : ∀ b ∈ f z, b = 0 := by
  have h1 : f z = List.zipWith (· + ·) (f z) (f z) := by
    conv_lhs => rw [← zipWith_add_self_of_zero z hz]
    exact hf z z rfl
  exact eq_zipWith_add_self_zero (f z) h1.symm

/-- The objective loop vanishes when every budget entry is zero and
every channel contributes zero at zero spend. -/
theorem objectiveLoop_eq_zero {A S : Type} (bo : BudgetOptimizer A S)
    (budgets : List ℚ) (hb : ∀ b ∈ budgets, b = 0) :
    ∀ l : List (String × A × S),
    (∀ p ∈ l, (channelTransformed bo 0 p.2.1 p.2.2).sum = 0) →
    ∀ idx, objectiveLoop bo budgets l idx = 0 := by
  intro l
  induction l with
  | nil => intro _ idx; rfl
  | cons p rest ih =>
    intro hl idx
    rw [objectiveLoop]
    have hz : budgets.getD idx 0 = 0 := by
      rcases Nat.lt_or_ge idx budgets.length with hlt | hge
      · have hmem : budgets[idx] ∈ budgets := List.getElem_mem hlt
        have hv := hb _ hmem
        simp [List.getD_eq_getElem?_getD, List.getElem?_eq_getElem hlt, hv]
      · simp [List.getD_eq_getElem?_getD, List.getElem?_eq_none hge]
    rw [hz, hl p (by simp), ih (fun q hq => hl q (by simp [hq])) (idx + 1)]
    norm_num

/-- C9: when the adstock transform is additive (linear) and the
saturation transform maps all-zero series to all-zero series, a channel
with spend exactly 0 contributes exactly 0, and the objective at the
all-zero spend vector is 0. -/
theorem C9_zero_spend {A S : Type} (bo : BudgetOptimizer A S)
    (budgets : List ℚ)
    (hA : ∀ p ∈ bo.parameters, ∀ xs ys : List ℚ, xs.length = ys.length →
      bo.adstock_function (List.zipWith (· + ·) xs ys) p.2.1
        = List.zipWith (· + ·) (bo.adstock_function xs p.2.1)
            (bo.adstock_function ys p.2.1))
    (hS : ∀ p ∈ bo.parameters, ∀ xs : List ℚ, (∀ a ∈ xs, a = 0) →
      ∀ b ∈ bo.saturation_function xs p.2.2, b = 0) :
    (∀ p ∈ bo.parameters, (channelTransformed bo 0 p.2.1 p.2.2).sum = 0)
    ∧ ((∀ b ∈ budgets, b = 0) → objective bo budgets = 0) := by
  have hchan : ∀ p ∈ bo.parameters,
      (channelTransformed bo 0 p.2.1 p.2.2).sum = 0 := by
    intro p hp
    have hzero : ∀ a ∈ List.replicate bo.num_days (0 : ℚ)
        ++ List.replicate bo.l_max (0 : ℚ), a = 0 := by
      intro a ha
      rcases List.mem_append.mp ha with h | h <;>
        exact List.eq_of_mem_replicate h
    apply List.sum_eq_zero
    intro y hy
    simp only [channelTransformed] at hy
    cases hfirst : bo.adstock_first with
    | true =>
        rw [hfirst, if_pos rfl] at hy
        exact hS p hp _
          (additive_map_zero (fun xs => bo.adstock_function xs p.2.1)
            (hA p hp) _ hzero) y hy
    | false =>
        rw [hfirst, if_neg (by simp)] at hy
        exact additive_map_zero (fun xs => bo.adstock_function xs p.2.1)
          (hA p hp) _ (hS p hp _ hzero) y hy
  refine ⟨hchan, fun hb => ?_⟩
  rw [objective, objectiveLoop_eq_zero bo budgets hb bo.parameters hchan 0,
    neg_zero]

/-- Witness for C9: the one-channel identity-transform optimizer at the
all-zero spend vector. -/
theorem C9_witness :
    (channelTransformed boUnit 0 () ()).sum = 0
    ∧ objective boUnit [0] = 0 := by
  have h := C9_zero_spend boUnit [0]
    (by intro p hp xs ys hxy; rfl)
    (by intro p hp xs hxs b hb; exact hxs b hb)
  exact ⟨h.1 ("chan1", (), ()) (by simp [boUnit]), h.2 (by simp)⟩

/-- Witness for C10: applied to the geometric component with a supplied
config missing its required key. -/
theorem C10_witness :
    ((GeometricAdstockComponent.initialize_model_config
        (some (fun _ => none))) "adstock_alpha").isSome = true
    ∧ (GeometricAdstockComponent.initialize_model_config
        (some (fun _ => none))) "adstock_alpha"
      = GeometricAdstockComponent.default_lagging_config "adstock_alpha" := by
  have h := C10_initialize_model_config GeometricAdstockComponent
    (Or.inl rfl) (some (fun _ => none))
  refine ⟨h.1 "adstock_alpha" (by simp [GeometricAdstockComponent]), ?_⟩
  exact h.2.2 (fun _ => none) rfl
    ⟨"adstock_alpha", by simp [GeometricAdstockComponent], rfl⟩
    "adstock_alpha" (by rfl)

end MMM
